import Mathlib

/-!
Verification of the Cosmetics Store backend.

Shallow embedding of the FastAPI backend in `main.py`. The module imports
`db`, `create_document`, `get_documents` from `database.py` and
`CosmeticProduct` from `schemas.py`; those two files are not part of the
source tree, so their behaviour is modelled from the specification
(§3 Data Model, §4.1 Document Store Adapter) and marked as such below.

Modelling choices:
* Mongo documents of the `cosmeticproduct` collection are `StoredDoc`s —
  a product payload together with the store-generated `_id`, modelled as a
  `Nat` counter; `str(ObjectId)` becomes `toString _id`.
* The store handle `db` is `Option StoreState` (`none` = not configured,
  matching `db is None` in the handlers).
* Decimal numbers (`price`, `rating`) are modelled as `Rat`; the handlers
  only ever move them around or compare them for equality.
* A handler returning an HTTP error via `HTTPException` is modelled with
  `Except HTTPError`.
* Python string slicing `s[:n]` is by code point, i.e. `List.take n` on the
  character data (`pyTake`), and Python truthiness of a string (`if category`)
  is "not `None` and not empty".
-/

/-- Modelled from the spec: `schemas.CosmeticProduct` (the file `schemas.py`
is not in the source tree). Fields per §3 of the spec: `title` required,
`price` required non-negative decimal, `in_stock` boolean defaulting to
true, all other fields optional. -/
structure CosmeticProduct where
  title : String
  description : Option String := none
  price : Rat
  category : Option String := none
  in_stock : Bool := true
  image_url : Option String := none
  shopify_url : Option String := none
  brand : Option String := none
  tags : Option (List String) := none
  rating : Option Rat := none
deriving DecidableEq

/-- A document stored in the `cosmeticproduct` collection: the product
fields plus the store-generated internal identifier (Mongo `_id`,
modelled as a `Nat`). -/
structure StoredDoc where
  _id : Nat
  product : CosmeticProduct
deriving DecidableEq

/-- The state of the `cosmeticproduct` collection: documents in insertion
order, plus the counter producing the next fresh internal identifier. -/
structure StoreState where
  docs : List StoredDoc
  nextId : Nat
deriving DecidableEq

/-- Modelled from the spec: `database.create_document` (§4.1 `insert`):
"writes one document, returns the generated identifier as a string".
Appends one document with a fresh `_id` and returns `str(_id)` together
with the new state. -/
def create_document (s : StoreState) (p : CosmeticProduct) : String × StoreState :=
  (toString s.nextId, ⟨s.docs ++ [⟨s.nextId, p⟩], s.nextId + 1⟩)

/-- The only filter `main.py` ever builds is `{}` (no constraint, `none`
here) or `{"category": c}` (`some c`). A document matches `{"category": c}`
exactly when its `category` field equals `c`. -/
def matchesFilter (filt : Option String) (d : StoredDoc) : Bool :=
  match filt with
  | none => true
  | some c => d.product.category = some c

/-- Modelled from the spec: `database.get_documents` (§4.1 `find`): "filter
is a mapping of field→exact-match value; empty filter returns all documents
in insertion order". -/
def get_documents (s : StoreState) (filt : Option String) : List StoredDoc :=
  s.docs.filter (matchesFilter filt)

/-- Result of `db["cosmeticproduct"].count_documents({})`: the number of
stored documents. -/
def count_documents (s : StoreState) : Nat :=
  s.docs.length

/-- Result of `db["cosmeticproduct"].distinct("category")`: the distinct
values taken by the `category` field across the collection (`none` for
documents whose category is null/absent). -/
def distinct_category (s : StoreState) : List (Option String) :=
  (s.docs.map (fun d => d.product.category)).dedup

/-- An `HTTPException(status_code, detail)` raised by a handler. -/
structure HTTPError where
  status : Nat
  detail : String
deriving DecidableEq

/-- A `{"message": ...}` response body. -/
structure MessageResponse where
  message : String
deriving DecidableEq

/-- Model of `ProductResponse` from `main.py`: the product fields plus
`id: Optional[str] = None`. -/
structure ProductResponse where
  id : Option String := none
  product : CosmeticProduct
deriving DecidableEq

/-- Python string slicing `s[:n]`: the first `n` code points. -/
def pyTake (s : String) (n : Nat) : String :=
  ⟨s.data.take n⟩

/-- Python truthiness of an optional string: `None` and `""` are falsy. -/
def pyTruthy (s : Option String) : Bool :=
  match s with
  | none => false
  | some c => !(c = "")

/-- Handler `read_root` (`GET /`). -/
def read_root : MessageResponse :=
  ⟨"Cosmetics Store Backend is running"⟩

/-- Handler `hello` (`GET /api/hello`). -/
def hello : MessageResponse :=
  ⟨"Hello from the backend API!"⟩

/-- The conversion `it["id"] = str(it.pop("_id"))` performed by
`list_products` on each stored document. -/
def toResponse (d : StoredDoc) : ProductResponse :=
  { id := some (toString d._id), product := d.product }

/-- Handler `list_products` (`GET /api/products`). `category` is the optional query
parameter; `db` the store handle. `filter_dict = {"category": category} if
category else {}` uses Python truthiness, so `None` and `""` both yield the
empty filter. -/
def list_products (category : Option String) (db : Option StoreState) :
    Except HTTPError (List ProductResponse) :=
  match db with
  | none => .error ⟨500, "Database not configured"⟩
  | some s =>
    let filter_dict : Option String :=
      if pyTruthy category then category else none
    .ok ((get_documents s filter_dict).map toResponse)

/-- The `{"id": new_id}` body returned by `create_product`. -/
structure CreateResponse where
  id : String
deriving DecidableEq

/-- Handler `create_product` (`POST /api/products`, `status_code=201`). Returns the
HTTP status, the response body and the store state after the insert. -/
def create_product (payload : CosmeticProduct) (db : Option StoreState) :
    Except HTTPError (Nat × CreateResponse × StoreState) :=
  match db with
  | none => .error ⟨500, "Database not configured"⟩
  | some s =>
    let r := create_document s payload
    .ok (201, ⟨r.1⟩, r.2)

/-- The comprehension `[c for c in cats if c]` keeps a category value only
when it is truthy, i.e. neither `None` nor `""`. -/
def truthyFilter (c : Option String) : Option String :=
  match c with
  | none => none
  | some c => if c = "" then none else some c

/-- Handler `list_categories` (`GET /api/categories`). The body is
`cats = db["cosmeticproduct"].distinct("category"); cats = [c for c in cats
if c]; cats.sort()` inside `try`, and `except Exception as e:
raise HTTPException(status_code=500, detail=str(e))`. A store fault during
the `distinct` call is modelled by `fault = some e` where `e` is `str(e)`
of the raised exception. -/
def list_categories (db : Option StoreState) (fault : Option String) :
    Except HTTPError (List String) :=
  match db with
  | none => .error ⟨500, "Database not configured"⟩
  | some s =>
    match fault with
    | some e => .error ⟨500, e⟩
    | none =>
      let cats := (distinct_category s).filterMap truthyFilter
      .ok (cats.insertionSort (· ≤ ·))

/-- The `{status, message?, count?, inserted?}` body returned by
`seed_sample_products`; absent dictionary keys are `none`. -/
structure SeedResponse where
  status : String
  message : Option String := none
  count : Option Nat := none
  inserted : Option Nat := none
deriving DecidableEq

/-- The fixed `samples` list from `seed_sample_products`. -/
def samples : List CosmeticProduct :=
  [ { title := "Velvet Matte Lipstick"
    , description := some "Rich pigment, long-lasting matte finish"
    , price := 14.99
    , category := some "makeup"
    , in_stock := true
    , image_url := some "https://images.unsplash.com/photo-1585218336020-3a9c1a66d0d8?q=80&w=1200&auto=format&fit=crop"
    , shopify_url := none
    , brand := some "GlowLab"
    , tags := some ["lipstick", "matte"]
    , rating := some 4.6 }
  , { title := "Hydrating Face Serum"
    , description := some "Hyaluronic acid + Vitamin B5 for deep hydration"
    , price := 24.5
    , category := some "skincare"
    , in_stock := true
    , image_url := some "https://images.unsplash.com/photo-1611930022073-b7a4ba5fcccd?q=80&w=1200&auto=format&fit=crop"
    , shopify_url := none
    , brand := some "PureSkin"
    , tags := some ["serum", "hydrating"]
    , rating := some 4.8 }
  , { title := "Nourishing Hair Oil"
    , description := some "Lightweight oil for shine and frizz control"
    , price := 18.0
    , category := some "haircare"
    , in_stock := true
    , image_url := some "https://images.unsplash.com/photo-1604654894610-df63bc536371?q=80&w=1200&auto=format&fit=crop"
    , shopify_url := none
    , brand := some "SilkRoot"
    , tags := some ["hair", "oil"]
    , rating := some 4.5 }
  , { title := "Mineral Sunscreen SPF 50"
    , description := some "Broad spectrum, reef-safe mineral sunscreen"
    , price := 19.99
    , category := some "skincare"
    , in_stock := true
    , image_url := some "https://images.unsplash.com/photo-1610384104073-96d02d53c16f?q=80&w=1200&auto=format&fit=crop"
    , shopify_url := none
    , brand := some "SunVeil"
    , tags := some ["sunscreen", "spf50"]
    , rating := some 4.7 } ]

/-- Handler `seed_sample_products` (`POST /api/seed`). Counts the documents; if any
exist it reports the count without writing, otherwise it inserts the four
samples via `create_document` and reports how many were inserted. Returns
the response body and the store state afterwards. -/
def seed_sample_products (db : Option StoreState) :
    Except HTTPError (SeedResponse × StoreState) :=
  match db with
  | none => .error ⟨500, "Database not configured"⟩
  | some s =>
    let count := count_documents s
    if count > 0 then
      .ok ({ status := "ok", message := some "Products already exist", count := some count }, s)
    else
      let s1 := samples.foldl (fun st p => (create_document st p).2) s
      .ok ({ status := "ok", inserted := some samples.length }, s1)

/-- The handle `db` as seen by `test_database`: possibly carrying a `name`
attribute (`db.name if hasattr(db, 'name') else "✅ Connected"`). -/
structure DbHandle where
  name : Option String := none
deriving DecidableEq

/-- The diagnostic object built by `test_database`. -/
structure TestResponse where
  backend : String
  database : String
  database_url : String
  database_name : String
  connection_status : String
  collections : List String
deriving DecidableEq

/-- Handler `test_database` (`GET /test`). `handle` is the store handle (`none` =
`db is None`); `list_coll` the outcome of `db.list_collection_names()`
(`Except.error e` models the call raising an exception with `str(e) = e`);
`urlSet`/`nameSet` whether the `DATABASE_URL`/`DATABASE_NAME` environment
variables are set. Every store access is inside `try`/`except`, the
faulting branch folding `str(e)[:50]` into the `database` field, so the
handler always returns a diagnostic object. The `database_url` and
`database_name` fields are unconditionally overwritten at the end. -/
def test_database (handle : Option DbHandle) (list_coll : Except String (List String))
    (urlSet nameSet : Bool) : TestResponse :=
  let response : TestResponse :=
    { backend := "✅ Running"
    , database := "❌ Not Available"
    , database_url := ""
    , database_name := ""
    , connection_status := "Not Connected"
    , collections := [] }
  let response :=
    match handle with
    | some h =>
      let response :=
        { response with
            database := "✅ Available"
          , database_url := "✅ Configured"
          , database_name := h.name.getD "✅ Connected"
          , connection_status := "Connected" }
      match list_coll with
      | .ok collections =>
          { response with
              collections := collections.take 10
            , database := "✅ Connected & Working" }
      | .error e =>
          { response with database := "⚠️  Connected but Error: " ++ pyTake e 50 }
    | none => { response with database := "⚠️  Available but not initialized" }
  { response with
      database_url := if urlSet then "✅ Set" else "❌ Not Set"
    , database_name := if nameSet then "✅ Set" else "❌ Not Set" }

/-- A concrete product used in concrete instances: the example payload from
§8 of the spec (`title "Test"`, `price 9.99`, `category "makeup"`). -/
def exProduct : CosmeticProduct :=
  { title := "Test", price := 9.99, category := some "makeup" }

/-- A store holding exactly `exProduct` under internal identifier `0`. -/
def exStore : StoreState :=
  ⟨[⟨0, exProduct⟩], 1⟩

/-- A store whose three products carry the categories
`["skincare", "makeup", "skincare"]`, in that order. -/
def catStore : StoreState :=
  ⟨[⟨0, { title := "Cleanser", price := 5, category := some "skincare" }⟩,
    ⟨1, { title := "Blush", price := 6, category := some "makeup" }⟩,
    ⟨2, { title := "Toner", price := 7, category := some "skincare" }⟩], 3⟩

/-- A diagnostic message longer than 50 characters. -/
def longMsg : String :=
  "store operation failed: connection reset by peer at shard replica 01"

/-- Auxiliary: `Nat.toDigitsCore` only ever prepends to its accumulator. -/
lemma length_le_toDigitsCore (b : Nat) :
    ∀ (f n : Nat) (ds : List Char), ds.length ≤ (Nat.toDigitsCore b f n ds).length := by
  intro f
  induction f with
  | zero => intro n ds; exact Nat.le_refl _
  | succ f ih =>
    intro n ds
    simp only [Nat.toDigitsCore]
    split
    · exact Nat.le_succ _
    · calc ds.length ≤ ((n % b).digitChar :: ds).length := by simp
        _ ≤ _ := ih _ _

/-- The decimal string representation of a `Nat` is never empty. -/
lemma toString_nat_ne_empty (n : Nat) : toString n ≠ "" := by
  intro hc
  have h1 : (toString n).length = (Nat.toDigits 10 n).length := rfl
  have h2 : 1 ≤ (Nat.toDigits 10 n).length := by
    show 1 ≤ (Nat.toDigitsCore 10 (n + 1) n []).length
    simp only [Nat.toDigitsCore]
    split
    · exact Nat.le_refl _
    · simpa using length_le_toDigitsCore 10 n (n / 10) [(n % 10).digitChar]
  rw [hc] at h1
  have h0 : ("" : String).length = 0 := rfl
  rw [h0] at h1
  omega

/-- Listing with no category query parameter returns all stored documents,
converted to responses, in order. -/
lemma list_products_none_eq (s : StoreState) :
    list_products none (some s) = .ok (s.docs.map toResponse) := by
  have hf : s.docs.filter (matchesFilter none) = s.docs :=
    List.filter_eq_self.mpr (fun a _ => rfl)
  simp [list_products, pyTruthy, get_documents, hf]

/-- C5: when the store handle is unavailable (`db is None`), GET
`/api/products` (with or without a category), POST `/api/products` and POST
`/api/seed` all return HTTP 500 with the detail message "Database not
configured", while GET `/` and GET `/api/hello` still return their fixed
success messages. -/
theorem unavailable_db_returns_500 :
    (∀ category : Option String,
      list_products category none = .error ⟨500, "Database not configured"⟩) ∧
    (∀ payload : CosmeticProduct,
      create_product payload none = .error ⟨500, "Database not configured"⟩) ∧
    seed_sample_products none = .error ⟨500, "Database not configured"⟩ ∧
    read_root = ⟨"Cosmetics Store Backend is running"⟩ ∧
    hello = ⟨"Hello from the backend API!"⟩ :=
  ⟨fun _ => rfl, fun _ => rfl, rfl, rfl, rfl⟩

/-- C6: a successful POST `/api/products` returns HTTP status 201 and a
body that is exactly `{"id": new_id}`, where `new_id` is the
store-generated identifier rendered as a string. -/
theorem create_product_response (s : StoreState) (payload : CosmeticProduct) :
    create_product payload (some s) =
      .ok (201, ⟨toString s.nextId⟩, ⟨s.docs ++ [⟨s.nextId, payload⟩], s.nextId + 1⟩) :=
  rfl

/-- C9: an empty-string `category` query parameter is treated like an
absent one — the filter falls back to the empty filter, so all stored
products are returned rather than only those whose category is `""`. -/
theorem empty_category_lists_all (s : StoreState) :
    list_products (some "") (some s) = list_products none (some s) ∧
    list_products (some "") (some s) = .ok (s.docs.map toResponse) :=
  ⟨rfl, list_products_none_eq s⟩

/-- C8 (amended): a store fault inside GET `/api/categories` surfaces as
HTTP 500 whose detail is the raw exception text `str(e)`, with no
truncation applied. -/
theorem list_categories_fault_raw_detail (s : StoreState) (e : String) :
    list_categories (some s) (some e) = .error ⟨500, e⟩ :=
  rfl

/-- C8 counterexample: with a 68-character exception message, the detail
returned by GET `/api/categories` is the raw message itself — strictly
longer than 50 characters and different from its 50-character truncation —
so the detail is not a truncated diagnostic. -/
theorem list_categories_fault_cex :
    list_categories (some exStore) (some longMsg) = .error ⟨500, longMsg⟩ ∧
    longMsg.length = 68 ∧ pyTake longMsg 50 ≠ longMsg := by
  refine ⟨rfl, rfl, by decide⟩

/-- C1 (amended): GET `/api/products` with no category parameter returns
every stored product exactly once (the full list, converted in order), and
with `category=X` for a non-empty `X` it returns exactly the stored
documents whose `category` field equals `X`. For `X = ""` see the
counterexample: the code falls back to the empty filter. -/
theorem list_products_filter_spec :
    (∀ s : StoreState, list_products none (some s) = .ok (s.docs.map toResponse)) ∧
    (∀ (s : StoreState) (X : String), X ≠ "" →
      list_products (some X) (some s) =
        .ok ((s.docs.filter (matchesFilter (some X))).map toResponse)) := by
  refine ⟨list_products_none_eq, fun s X hX => ?_⟩
  have ht : pyTruthy (some X) = true := by
    simp [pyTruthy, hX]
  simp [list_products, ht, get_documents]

/-- Witness for C1: filtering the one-product store for category
`"makeup"` returns exactly the matching subset. -/
theorem list_products_filter_spec_witness :
    list_products (some "makeup") (some exStore) =
      .ok ((exStore.docs.filter (matchesFilter (some "makeup"))).map toResponse) :=
  list_products_filter_spec.2 exStore "makeup" (by decide)

/-- C1 counterexample: querying `category=` (the empty string) against a
store whose only product has category `"makeup"` returns that product,
while the subset of stored documents whose category equals `""` is empty —
so the response is not "exactly the subset whose category equals `X`" when
`X = ""`. -/
theorem list_products_empty_category_cex :
    list_products (some "") (some exStore) = .ok [toResponse ⟨0, exProduct⟩] ∧
    exStore.docs.filter (matchesFilter (some "")) = [] ∧
    [toResponse ⟨0, exProduct⟩] ≠
      (exStore.docs.filter (matchesFilter (some ""))).map toResponse := by
  refine ⟨list_products_none_eq exStore, by decide, by decide⟩

/-- C3: creating a product and then listing products (no filter) yields a
list containing a record whose product fields equal the input payload,
with the freshly generated identifier attached as `id`. -/
theorem create_then_list_roundtrip (s : StoreState) (payload : CosmeticProduct) :
    ∃ (newId : String) (s1 : StoreState) (items : List ProductResponse),
      create_product payload (some s) = .ok (201, ⟨newId⟩, s1) ∧
      list_products none (some s1) = .ok items ∧
      ∃ r ∈ items, r.product = payload ∧ r.id = some newId := by
  refine ⟨toString s.nextId, ⟨s.docs ++ [StoredDoc.mk s.nextId payload], s.nextId + 1⟩, _,
    rfl, list_products_none_eq _, ?_⟩
  refine ⟨toResponse (StoredDoc.mk s.nextId payload), ?_, rfl, rfl⟩
  simp [toResponse]

/-- C2: POST `/api/seed` is idempotent. If the collection already holds at
least one document, no insert happens, the state is unchanged and the body
reports the existing count with the "Products already exist" message; if
the collection is empty, the four fixed samples are inserted and the body
reports `inserted = 4`, and a second seed call then leaves that state
unchanged. -/
theorem seed_idempotent (s : StoreState) :
    (0 < count_documents s →
      seed_sample_products (some s) =
        .ok ({ status := "ok", message := some "Products already exist",
               count := some (count_documents s) }, s)) ∧
    (s.docs = [] → ∃ s1 : StoreState,
      seed_sample_products (some s) =
        .ok ({ status := "ok", inserted := some samples.length }, s1) ∧
      s1.docs.map StoredDoc.product = samples ∧
      count_documents s1 = samples.length ∧
      seed_sample_products (some s1) =
        .ok ({ status := "ok", message := some "Products already exist",
               count := some samples.length }, s1)) := by
  constructor
  · intro h
    simp only [seed_sample_products]
    rw [if_pos h]
  · intro h
    obtain ⟨docs, n⟩ := s
    simp only at h
    subst h
    exact ⟨_, rfl, rfl, rfl, rfl⟩

/-- Witness for C2: seeding a one-product store reports the existing count
without changing the state, and seeding an empty store inserts the four
samples after which a second seed is a no-op. -/
theorem seed_idempotent_witness :
    seed_sample_products (some exStore) =
      .ok ({ status := "ok", message := some "Products already exist",
             count := some 1 }, exStore) ∧
    (∃ s1 : StoreState,
      seed_sample_products (some ⟨[], 0⟩) =
        .ok ({ status := "ok", inserted := some samples.length }, s1) ∧
      s1.docs.map StoredDoc.product = samples ∧
      count_documents s1 = samples.length ∧
      seed_sample_products (some s1) =
        .ok ({ status := "ok", message := some "Products already exist",
               count := some samples.length }, s1)) :=
  ⟨(seed_idempotent exStore).1 (by decide), (seed_idempotent ⟨[], 0⟩).2 rfl⟩

/-- C7: every record returned by GET `/api/products` corresponds to a
stored document, carries `id = some (toString _id)` — a non-empty string
derived from the store's internal identifier, which is not a field of the
creation payload type — and its remaining fields are the stored product
fields. -/
theorem list_products_ids_present (category : Option String) (s : StoreState)
    (items : List ProductResponse)
    (h : list_products category (some s) = .ok items) :
    ∀ r ∈ items, ∃ d ∈ s.docs,
      r.id = some (toString d._id) ∧ toString d._id ≠ "" ∧ r.product = d.product := by
  simp only [list_products, Except.ok.injEq] at h
  subst h
  intro r hr
  rw [List.mem_map] at hr
  obtain ⟨d, hd, rfl⟩ := hr
  simp only [get_documents] at hd
  exact ⟨d, List.mem_of_mem_filter hd, rfl, toString_nat_ne_empty _, rfl⟩

/-- Witness for C7: in the one-product store, the single listed record
carries the non-empty id "0" derived from the stored identifier. -/
theorem list_products_ids_present_witness :
    ∃ d ∈ exStore.docs,
      (toResponse (StoredDoc.mk 0 exProduct)).id = some (toString d._id) ∧
      toString d._id ≠ "" ∧
      (toResponse (StoredDoc.mk 0 exProduct)).product = d.product :=
  list_products_ids_present none exStore (exStore.docs.map toResponse)
    (list_products_none_eq exStore) (toResponse (StoredDoc.mk 0 exProduct))
    (by simp [exStore])

/-- Helper: `truthyFilter` yields `some c` exactly when the stored category
is `some c` with `c` non-empty. -/
lemma truthyFilter_eq_some (o : Option String) (c : String) :
    truthyFilter o = some c ↔ o = some c ∧ c ≠ "" := by
  cases o with
  | none => simp [truthyFilter]
  | some x =>
    simp only [truthyFilter, Option.some.injEq]
    by_cases hx : x = ""
    · subst hx
      simp only [if_pos rfl]
      constructor
      · intro h; cases h
      · rintro ⟨rfl, hc⟩; exact absurd rfl hc
    · rw [if_neg hx]
      simp only [Option.some.injEq]
      constructor
      · rintro rfl; exact ⟨rfl, hx⟩
      · rintro ⟨rfl, _⟩; rfl

/-- C4: GET `/api/categories` returns the distinct stored category values
with null/empty excluded, without duplicates, sorted ascending; in
particular, for stored categories `["skincare", "makeup", "skincare"]` the
output is `["makeup", "skincare"]`. -/
theorem list_categories_spec :
    (∀ s : StoreState, ∃ cats : List String,
      list_categories (some s) none = .ok cats ∧
      cats.Sorted (· ≤ ·) ∧ cats.Nodup ∧
      (∀ c : String, c ∈ cats ↔ c ≠ "" ∧ ∃ d ∈ s.docs, d.product.category = some c)) ∧
    list_categories (some catStore) none = .ok ["makeup", "skincare"] := by
  constructor
  · intro s
    refine ⟨((distinct_category s).filterMap truthyFilter).insertionSort (· ≤ ·), rfl,
      List.sorted_insertionSort _ _, ?_, ?_⟩
    · refine (List.perm_insertionSort _ _).symm.nodup ((List.nodup_dedup _).filterMap ?_)
      intro a a' b hb hb'
      rw [Option.mem_def, truthyFilter_eq_some] at hb hb'
      rw [hb.1, hb'.1]
    · intro c
      rw [(List.perm_insertionSort _ _).mem_iff, List.mem_filterMap]
      constructor
      · rintro ⟨o, ho, hoc⟩
        rw [truthyFilter_eq_some] at hoc
        obtain ⟨rfl, hc⟩ := hoc
        simp only [distinct_category, List.mem_dedup, List.mem_map] at ho
        obtain ⟨d, hd, hdc⟩ := ho
        exact ⟨hc, d, hd, hdc⟩
      · rintro ⟨hc, d, hd, hdc⟩
        refine ⟨some c, ?_, (truthyFilter_eq_some _ _).mpr ⟨rfl, hc⟩⟩
        simp only [distinct_category, List.mem_dedup, List.mem_map]
        exact ⟨d, hd, hdc⟩
  · have h1 : (distinct_category catStore).filterMap truthyFilter = ["makeup", "skincare"] := by
      decide
    show Except.ok (((distinct_category catStore).filterMap truthyFilter).insertionSort (· ≤ ·)) =
      .ok ["makeup", "skincare"]
    rw [h1]
    have h2 : (["makeup", "skincare"] : List String).insertionSort (· ≤ ·) =
        ["makeup", "skincare"] := by
      simp [List.insertionSort, List.orderedInsert]
      decide
    rw [h2]

/-- C10: `GET /test` is total: for every store handle (absent, connected,
or raising on collection listing) it returns the diagnostic object, and a
fault message is folded into the `database` field truncated to its first
50 characters. -/
theorem test_database_total (handle : Option DbHandle)
    (list_coll : Except String (List String)) (urlSet nameSet : Bool) :
    (test_database handle list_coll urlSet nameSet).backend = "✅ Running" ∧
    (test_database handle list_coll urlSet nameSet).database_url =
      (if urlSet then "✅ Set" else "❌ Not Set") ∧
    (test_database handle list_coll urlSet nameSet).database_name =
      (if nameSet then "✅ Set" else "❌ Not Set") ∧
    (∀ h e, handle = some h → list_coll = .error e →
      (test_database handle list_coll urlSet nameSet).database =
        "⚠️  Connected but Error: " ++ pyTake e 50 ∧
      (pyTake e 50).length ≤ 50) := by
  refine ⟨?_, rfl, rfl, ?_⟩
  · cases handle <;> cases list_coll <;> rfl
  · rintro h e rfl rfl
    refine ⟨rfl, ?_⟩
    show (e.data.take 50).length ≤ 50
    rw [List.length_take]
    exact Nat.min_le_left _ _

/-- Witness for C10: a faulting collection listing with a 68-character
message is folded into the `database` field truncated to 50 characters. -/
theorem test_database_total_witness :
    (test_database (some ⟨none⟩) (.error longMsg) true false).database =
      "⚠️  Connected but Error: " ++ pyTake longMsg 50 ∧
    (pyTake longMsg 50).length ≤ 50 :=
  (test_database_total (some ⟨none⟩) (.error longMsg) true false).2.2.2 ⟨none⟩ longMsg rfl rfl
